import Mathlib

/-!
Verification of the Zoq real-time communication layer.

Shallow embedding of the Call Session component
(src/frontend/src/components/VideoCall.jsx) and the Conversation Sync
component (the Messages screen).  Platform primitives (MediaStreamTrack,
the simple-peer library, the socket transport) are modelled by their
documented contracts; everything else is translated line by line from the
source.
-/

namespace Zoq

/-- Opaque negotiation payloads (SDP descriptors / ICE candidates) carried by
signaling events. -/
abbrev Signal := String

/-- A local media track as exposed by the platform (MediaStreamTrack).
`releaseCount` counts live-to-ended transitions, i.e. actual releases of the
capture device.  Per the platform contract, `stop` on an already-ended track
is a no-op. -/
structure Track where
  isAudio : Bool
  enabled : Bool
  ended : Bool
  releaseCount : Nat
deriving DecidableEq

/-- MediaStreamTrack.stop(): ends a live track and releases its device once;
a second stop on an ended track does nothing (platform contract). -/
def Track.stop (t : Track) : Track :=
  if t.ended then t else { t with ended := true, releaseCount := t.releaseCount + 1 }

/-- The peerLink (a simple-peer instance).  `received` records every payload
fed through `.signal(...)`; `destroy` marks destruction.  Per the library
contract, destroying an already-destroyed peer does nothing and does not
re-emit the close event. -/
structure Peer where
  initiator : Bool
  destroyed : Bool
  received : List Signal
deriving DecidableEq

/-- peer.signal(data): hand a negotiation payload to the peerLink. -/
def Peer.signal (p : Peer) (sig : Signal) : Peer :=
  { p with received := p.received ++ [sig] }

/-- peer.destroy(). -/
def Peer.destroy (p : Peer) : Peer :=
  { p with destroyed := true }

/-- Component state of VideoCall.jsx: the useState/useRef cells, plus
`callActive`, the parent flag that the `onEnd` prop sets to false, and
`emitted`, the record of `call_user` events emitted on the socket
(to_user_id, signal, type). -/
structure CallState where
  recipientId : String
  socketPresent : Bool
  localStream : Option (List Track)
  remoteStream : Option (List Track)
  isMuted : Bool
  isVideoOff : Bool
  peerRef : Option Peer
  callStatus : String
  callActive : Bool
  emitted : List (String × Signal × String)
deriving DecidableEq

/-- State at mount: useState defaults of VideoCall.jsx (lines 8-15).
`isVideoOff` starts true exactly when the call type is audio. -/
def initialCallState (recipientId : String) (socketPresent : Bool)
    (audioOnly : Bool) : CallState :=
  { recipientId := recipientId
    socketPresent := socketPresent
    localStream := none
    remoteStream := none
    isMuted := false
    isVideoOff := audioOnly
    peerRef := none
    callStatus := "Connecting..."
    callActive := true
    emitted := [] }

/-- createPeer (lines 62-97): constructs a SimplePeer with the given
initiator flag and stores it in peerRef.  The stream argument is passed by
reference; the tracks' state continues to live in `localStream`. -/
def createPeer (initiator : Bool) (s : CallState) : CallState :=
  { s with peerRef := some { initiator := initiator, destroyed := false, received := [] } }

/-- The peer's signal handler (lines 69-77): when the socket prop is present,
emit call_user tagged with the recipient id and offer/answer per role. -/
def onPeerSignal (initiator : Bool) (sig : Signal) (s : CallState) : CallState :=
  if s.socketPresent then
    { s with emitted := s.emitted ++ [(s.recipientId, sig, if initiator then "offer" else "answer")] }
  else s

/-- Outcome of navigator.mediaDevices.getUserMedia. -/
inductive MediaResult
  | ok (tracks : List Track)
  | err
deriving DecidableEq

/-- initializeCall (lines 39-60): on media success store the stream, create
the peer as initiator, set status to "Calling..."; on failure set the
human-readable failure status and create nothing. -/
def initializeCall (res : MediaResult) (s : CallState) : CallState :=
  match res with
  | .ok tracks =>
      let s1 := { s with localStream := some tracks }
      let s2 := createPeer true s1
      { s2 with callStatus := "Calling..." }
  | .err => { s with callStatus := "Failed to access camera/microphone" }

/-- handleIncomingCall (lines 99-103): feed the signal into the peerLink only
when the sender is the session's counterpart AND a peerLink already exists;
otherwise do nothing. -/
def handleIncomingCall (from_user_id : String) (sig : Signal) (s : CallState) : CallState :=
  if from_user_id = s.recipientId then
    match s.peerRef with
    | some p => { s with peerRef := some (p.signal sig) }
    | none => s
  else s

/-- handleCallAccepted (lines 105-109): feed the signal into the peerLink
whenever one exists; the payload's sender is never inspected. -/
def handleCallAccepted (sig : Signal) (s : CallState) : CallState :=
  match s.peerRef with
  | some p => { s with peerRef := some (p.signal sig) }
  | none => s

/-- handleIceCandidate (lines 111-115): feed the candidate into the peerLink
when one exists and the candidate is present; otherwise do nothing. -/
def handleIceCandidate (candidate : Option Signal) (s : CallState) : CallState :=
  match s.peerRef, candidate with
  | some p, some c => { s with peerRef := some (p.signal c) }
  | _, _ => s

/-- The per-track effect of toggleMute: flip `enabled` on audio tracks
(getAudioTracks().forEach), leave video tracks alone. -/
def flipAudio (t : Track) : Track :=
  if t.isAudio then { t with enabled := !t.enabled } else t

/-- toggleMute (lines 117-124): when a local stream exists, flip every audio
track's enabled flag and flip isMuted; otherwise do nothing. -/
def toggleMute (s : CallState) : CallState :=
  match s.localStream with
  | some tracks =>
      { s with localStream := some (tracks.map flipAudio), isMuted := !s.isMuted }
  | none => s

/-- cleanup (lines 135-142): stop every local track when a stream exists,
then destroy the peer when one exists.  Neither cell is cleared. -/
def cleanup (s : CallState) : CallState :=
  let s1 :=
    match s.localStream with
    | some tracks => { s with localStream := some (tracks.map Track.stop) }
    | none => s
  match s1.peerRef with
  | some p => { s1 with peerRef := some p.destroy }
  | none => s1

/-- The onEnd prop: the parent sets callActive to false. -/
def onEnd (s : CallState) : CallState :=
  { s with callActive := false }

/-- One pass of the endCall body (lines 144-147): cleanup then onEnd. -/
def endCallBody (s : CallState) : CallState :=
  onEnd (cleanup s)

/-- endCall including the cascade through the peer's close event: destroying
a live peer fires 'close' exactly once, and the registered handler
(lines 92-94) re-invokes endCall; the re-entered destroy finds the peer
already destroyed, so no further close fires and the cascade has depth 2. -/
def endCall (s : CallState) : CallState :=
  let closeFires :=
    match s.peerRef with
    | some p => !p.destroyed
    | none => false
  let s1 := endCallBody s
  if closeFires then endCallBody s1 else s1

/-- The spec's abstract CallSession status enumeration (spec 4.1). -/
inductive SpecCallState
  | Connecting
  | Calling
  | Connected
  | Error
  | Ended
deriving DecidableEq

/-- Map the code's human-readable callStatus strings (the only values ever
assigned in VideoCall.jsx) to the spec's abstract status enumeration.
"Ended" corresponds to no string: the session ends by unmounting
(callActive = false), not by a status assignment. -/
def specStatus (st : String) : SpecCallState :=
  if st = "Connecting..." then .Connecting
  else if st = "Calling..." then .Calling
  else if st = "Connected" then .Connected
  else .Error

/-- Observable release record of the local stream: for each track, whether
it has ended and how many times its device was actually released. -/
def trackRelease (t : Track) : Bool × Nat :=
  (t.ended, t.releaseCount)

/-- Release record of the whole session. -/
def streamReleaseCounts (s : CallState) : Option (List (Bool × Nat)) :=
  s.localStream.map (List.map trackRelease)

/-- Effect of one stop on a release record: the track ends, and its release
count grows by one exactly when it was still live. -/
def stopRelease : Bool × Nat → Bool × Nat
  | (ended, rc) => (true, if ended then rc else rc + 1)

/-- A message of the Conversation Sync component (Messages screen). -/
structure Message where
  id : String
  from_user_id : String
  to_user_id : String
  content : String
  created_at : String
deriving DecidableEq

/-- Observable state of the Messages screen relevant to sending:
`userId` is the route param selecting the active thread, `messages` the
visible log, `newMessage` the pending input.  `emitted` records
send_message socket events and `restWrites` the POST /messages attempts
(both as (to_user_id, content)); `convReloads` counts loadConversations
invocations and `toasts` the user-visible error notices. -/
structure MessagesState where
  userId : Option String
  messages : List Message
  newMessage : String
  emitted : List (String × String)
  restWrites : List (String × String)
  convReloads : Nat
  toasts : List String
deriving DecidableEq

/-- JS String.prototype.trim as used by the guard `!newMessage.trim()`:
strip leading and trailing whitespace.  (Defined structurally so that it
evaluates inside the kernel.) -/
def jsTrim (s : String) : String :=
  String.mk (((s.toList.dropWhile Char.isWhitespace).reverse.dropWhile
    Char.isWhitespace).reverse)

/-- sendMessage (Messages screen, lines 102-130).  `selfId` is user.id,
`connected` is socket && socket.connected, `restOk` tells whether the
awaited POST /messages succeeds (consulted only on the REST path, since
socket.emit is fire-and-forget), `nowId` is Date.now().toString() and
`nowIso` is new Date().toISOString().  Guard: empty trimmed input or no
selected thread returns unchanged.  On the socket path: emit, then append
the provisional message, clear the input, reload conversations.  On the
REST path the POST is awaited first: if it succeeds the same append,
clear and reload follow; if it throws, the catch shows a toast and
nothing else happens. -/
def sendMessage (selfId : String) (connected : Bool) (restOk : Bool)
    (nowId nowIso : String) (s : MessagesState) : MessagesState :=
  match s.userId with
  | none => s
  | some uid =>
    if jsTrim s.newMessage = "" then s
    else
      if connected then
        { s with
          emitted := s.emitted ++ [(uid, s.newMessage)]
          messages := s.messages ++
            [{ id := nowId, from_user_id := selfId, to_user_id := uid
               content := s.newMessage, created_at := nowIso }]
          newMessage := ""
          convReloads := s.convReloads + 1 }
      else if restOk then
        { s with
          restWrites := s.restWrites ++ [(uid, s.newMessage)]
          messages := s.messages ++
            [{ id := nowId, from_user_id := selfId, to_user_id := uid
               content := s.newMessage, created_at := nowIso }]
          newMessage := ""
          convReloads := s.convReloads + 1 }
      else
        { s with
          restWrites := s.restWrites ++ [(uid, s.newMessage)]
          toasts := s.toasts ++ ["Failed to send message"] }

/-- Asynchronous events governing the active thread's log.  `switch u` is a
route change to thread u: the useEffect on [userId] (lines 56-61) issues
loadMessages(u), so a GET /messages/u request becomes pending.  `response
pid msgs` is a pending request for thread pid resolving with payload msgs:
the continuation in loadMessages (lines 80-87) runs setMessages(msgs) with
no check of pid against the current thread. -/
inductive SyncEvent
  | switch (newUserId : String)
  | response (partnerId : String) (msgs : List Message)
deriving DecidableEq

/-- Thread-log state: active thread, visible log, and the partner ids of
in-flight GET /messages requests. -/
structure ThreadState where
  userId : Option String
  messages : List Message
  pending : List String
deriving DecidableEq

/-- One event applied to the thread-log state, translated from the source:
a switch sets the route param and issues a load; a resolving load replaces
the visible log wholesale, unconditionally. -/
def applySyncEvent (s : ThreadState) : SyncEvent → ThreadState
  | .switch u => { s with userId := some u, pending := s.pending ++ [u] }
  | .response pid msgs => { s with messages := msgs, pending := s.pending.erase pid }

/-- Fold a sequence of interleaved events over the thread-log state. -/
def runSync (s : ThreadState) (es : List SyncEvent) : ThreadState :=
  es.foldl applySyncEvent s

/-- An event trace is valid when every response resolves a request that is
actually pending at that point. -/
def validTrace : ThreadState → List SyncEvent → Bool
  | _, [] => true
  | s, e :: es =>
    (match e with
     | .switch _ => true
     | .response pid _ => s.pending.contains pid) && validTrace (applySyncEvent s e) es

/-- Concrete call state with a live stream (one audio, one video track) and
a live initiator peer, as reached after a successful initializeCall. -/
def sampleLiveCall : CallState :=
  { recipientId := "alice"
    socketPresent := true
    localStream := some
      [{ isAudio := true, enabled := true, ended := false, releaseCount := 0 },
       { isAudio := false, enabled := true, ended := false, releaseCount := 0 }]
    remoteStream := none
    isMuted := false
    isVideoOff := false
    peerRef := some { initiator := true, destroyed := false, received := [] }
    callStatus := "Connected"
    callActive := true
    emitted := [] }

/-- Concrete call state before any peerLink or local tracks exist. -/
def sampleNoPeerCall : CallState :=
  initialCallState "alice" true false

/-- Concrete Messages state: thread "bob" selected, input "hi" pending. -/
def sampleSendState : MessagesState :=
  { userId := some "bob"
    messages := []
    newMessage := "hi"
    emitted := []
    restWrites := []
    convReloads := 0
    toasts := [] }

/-- A message whose counterpart is peer "A". -/
def msgFromA : Message :=
  { id := "1", from_user_id := "A", to_user_id := "me"
    content := "hello from A", created_at := "t1" }

/-- A message whose counterpart is peer "B". -/
def msgFromB : Message :=
  { id := "2", from_user_id := "B", to_user_id := "me"
    content := "hello from B", created_at := "t2" }

/-- Fresh thread-log state before any thread is selected. -/
def threadStart : ThreadState :=
  { userId := none, messages := [], pending := [] }

/-- The stale-load interleaving: open thread A, switch to B, B's load
resolves, then A's stale load resolves last. -/
def staleTrace : List SyncEvent :=
  [.switch "A", .switch "B", .response "B" [msgFromB], .response "A" [msgFromA]]

/-- Stopping a track twice is one release: the second stop is a no-op. -/
theorem Track.stop_stop (t : Track) : t.stop.stop = t.stop := by
  cases t with
  | mk a e ed rc => cases ed <;> simp [Track.stop]

/-- Destroying a peer twice equals destroying it once. -/
theorem Peer.destroy_destroy (p : Peer) : p.destroy.destroy = p.destroy := by
  cases p
  simp [Peer.destroy]

/-- Closed form of one endCall pass: stop every local track, destroy the
peer when present, set callActive false. -/
theorem endCallBody_eq (s : CallState) :
    endCallBody s =
      { s with localStream := s.localStream.map (List.map Track.stop)
               peerRef := s.peerRef.map Peer.destroy
               callActive := false } := by
  cases s with
  | mk rid sock ls rs m v pr st ca em =>
      cases ls <;> cases pr <;> rfl

/-- A second endCall pass changes nothing. -/
theorem endCallBody_idem (s : CallState) : endCallBody (endCallBody s) = endCallBody s := by
  cases s with
  | mk rid sock ls rs m v pr st ca em =>
      cases ls <;> cases pr <;>
        simp [endCallBody, cleanup, onEnd, List.map_map, Function.comp_def,
          Track.stop_stop, Peer.destroy_destroy]

/-- The close-event cascade collapses: endCall equals one endCall pass,
because the re-entered pass is a no-op on already-stopped tracks and an
already-destroyed peer. -/
theorem endCall_eq_body (s : CallState) : endCall s = endCallBody s := by
  cases hp : s.peerRef with
  | none => simp [endCall, hp]
  | some p => cases hd : p.destroyed <;> simp [endCall, hp, hd, endCallBody_idem]

/-- endCall is idempotent as a state transformer. -/
theorem endCall_idem (s : CallState) : endCall (endCall s) = endCall s := by
  rw [endCall_eq_body s, endCall_eq_body]
  exact endCallBody_idem s

/-- Any positive number of hangups equals a single hangup. -/
theorem endCall_iterate (s : CallState) (n : Nat) (h : 1 ≤ n) :
    endCall^[n] s = endCall s := by
  induction n with
  | zero => exact absurd h (by decide)
  | succ m ih =>
      cases Nat.eq_zero_or_pos m with
      | inl h0 => subst h0; rfl
      | inr hm =>
          rw [Function.iterate_succ_apply', ih hm, endCall_idem]

/-- The release record after one stop of each track. -/
theorem trackRelease_stop (t : Track) :
    trackRelease t.stop = stopRelease (trackRelease t) := by
  cases t with
  | mk a e ed rc => cases ed <;> simp [Track.stop, trackRelease, stopRelease]

/-- A double mute flip on one track is the identity. -/
theorem flipAudio_flipAudio (t : Track) : flipAudio (flipAudio t) = t := by
  cases t with
  | mk a e ed rc => cases a <;> simp [flipAudio]

/-- C1: invoking hangup (endCall) any number of times, from any state
(including before a peerLink or local tracks exist), yields the same state
as a single hangup; the session is ended (callActive false, so the
true-to-false transition happens at most once along the trace), and every
local track that was live is released exactly once while already-ended
tracks keep their release count — even though the peer's close event
re-enters endCall during destroy.  All operations on this path are total
(stop on an ended track and destroy on a destroyed peer are platform
no-ops), so no invocation throws. -/
theorem hangup_idempotent_once (s : CallState) (n : Nat) (h : 1 ≤ n) :
    endCall^[n] s = endCall s
    ∧ (endCall^[n] s).callActive = false
    ∧ streamReleaseCounts (endCall^[n] s)
        = Option.map (List.map stopRelease) (streamReleaseCounts s) := by
  refine ⟨endCall_iterate s n h, ?_, ?_⟩
  · rw [endCall_iterate s n h, endCall_eq_body, endCallBody_eq]
  · rw [endCall_iterate s n h, endCall_eq_body, endCallBody_eq]
    simp [streamReleaseCounts, Option.map_map, List.map_map, Function.comp_def,
      trackRelease_stop]

/-- Witness for C1: three consecutive hangups on a connected call with two
live tracks. -/
theorem hangup_idempotent_once_witness :
    1 ≤ 3
    ∧ (endCall^[3] sampleLiveCall = endCall sampleLiveCall
      ∧ (endCall^[3] sampleLiveCall).callActive = false
      ∧ streamReleaseCounts (endCall^[3] sampleLiveCall)
          = Option.map (List.map stopRelease) (streamReleaseCounts sampleLiveCall)) :=
  ⟨by decide, hangup_idempotent_once sampleLiveCall 3 (by decide)⟩

/-- C2 counterexample: an incoming_call from the session's counterpart
("alice") arriving while no peerLink exists leaves the state completely
unchanged — no Responder-role peerLink is constructed and the descriptor is
not fed anywhere, contrary to the claim. -/
theorem incoming_call_no_responder_constructed :
    sampleNoPeerCall.peerRef = none
    ∧ handleIncomingCall "alice" "offer-sdp" sampleNoPeerCall = sampleNoPeerCall
    ∧ (handleIncomingCall "alice" "offer-sdp" sampleNoPeerCall).peerRef = none := by
  decide

/-- C2 amended: when an incoming_call from the counterpart arrives and a
peerLink already exists, the descriptor is fed directly into it; when no
peerLink exists, the signal is ignored — no Responder-role peerLink is ever
constructed (the sole createPeer call site passes initiator = true). -/
theorem incoming_call_feed_or_ignore (s : CallState) (sig : Signal) (p : Peer) :
    (s.peerRef = some p →
      handleIncomingCall s.recipientId sig s = { s with peerRef := some (p.signal sig) })
    ∧ (s.peerRef = none → handleIncomingCall s.recipientId sig s = s) := by
  constructor <;> intro h <;> simp [handleIncomingCall, h]

/-- Witness for the amended C2 at a live call. -/
theorem incoming_call_feed_or_ignore_witness :
    (sampleLiveCall.peerRef = some { initiator := true, destroyed := false, received := [] } →
      handleIncomingCall sampleLiveCall.recipientId "answer-sdp" sampleLiveCall
        = { sampleLiveCall with
            peerRef := some (Peer.signal { initiator := true, destroyed := false, received := [] } "answer-sdp") })
    ∧ (sampleLiveCall.peerRef = none →
      handleIncomingCall sampleLiveCall.recipientId "answer-sdp" sampleLiveCall = sampleLiveCall) :=
  incoming_call_feed_or_ignore sampleLiveCall "answer-sdp"
    { initiator := true, destroyed := false, received := [] }

/-- C3 counterexample: an ice_candidate arriving before any peerLink exists
leaves the state completely unchanged — the state carries no buffer at all
(CallState has no field that could hold it), so the candidate is silently
dropped rather than buffered or deferred. -/
theorem early_candidate_dropped :
    sampleNoPeerCall.peerRef = none
    ∧ handleIceCandidate (some "cand-1") sampleNoPeerCall = sampleNoPeerCall := by
  decide

/-- C3 amended: a candidate arriving before the peerLink exists is silently
ignored without crashing (the handler is total and the state is unchanged);
a candidate arriving while a peerLink exists is deferred to the negotiation
primitive via peer.signal; a missing candidate field is ignored. -/
theorem ice_candidate_feed_or_drop (s : CallState) (c : Signal) (p : Peer) :
    (s.peerRef = none → handleIceCandidate (some c) s = s)
    ∧ (s.peerRef = some p →
        handleIceCandidate (some c) s = { s with peerRef := some (p.signal c) })
    ∧ handleIceCandidate none s = s := by
  refine ⟨fun h => by simp [handleIceCandidate, h],
    fun h => by simp [handleIceCandidate, h], ?_⟩
  cases hp : s.peerRef <;> simp [handleIceCandidate, hp]

/-- Witness for the amended C3 at a live call. -/
theorem ice_candidate_feed_or_drop_witness :
    (sampleLiveCall.peerRef = none → handleIceCandidate (some "cand-2") sampleLiveCall = sampleLiveCall)
    ∧ (sampleLiveCall.peerRef = some { initiator := true, destroyed := false, received := [] } →
        handleIceCandidate (some "cand-2") sampleLiveCall
          = { sampleLiveCall with
              peerRef := some (Peer.signal { initiator := true, destroyed := false, received := [] } "cand-2") })
    ∧ handleIceCandidate none sampleLiveCall = sampleLiveCall :=
  ice_candidate_feed_or_drop sampleLiveCall "cand-2"
    { initiator := true, destroyed := false, received := [] }

/-- C4 counterexample: in the valid interleaving where the load issued for
thread A resolves after the switch to B and after B's own load, the final
state views thread B while the visible log holds exactly A's message — the
stale result was applied wholesale, not discarded. -/
theorem stale_load_overwrites :
    validTrace threadStart staleTrace = true
    ∧ (runSync threadStart staleTrace).userId = some "B"
    ∧ (runSync threadStart staleTrace).messages = [msgFromA]
    ∧ msgFromA.from_user_id = "A"
    ∧ msgFromA.from_user_id ≠ "B"
    ∧ msgFromA.to_user_id ≠ "B" := by
  decide

/-- C4 amended: the visible log always equals the payload of whichever load
resolved last, regardless of the active thread — so after switching from A
to B the log contains only B's messages exactly when B's load resolves
after A's; a stale load for A resolving later replaces the log with A's
messages.  Moreover the switch itself leaves the prior thread's log in
place until some load resolves. -/
theorem thread_log_last_load_wins (s : ThreadState) (es : List SyncEvent)
    (pid : String) (msgs : List Message) (u : String) :
    (runSync s (es ++ [SyncEvent.response pid msgs])).messages = msgs
    ∧ (applySyncEvent s (SyncEvent.switch u)).messages = s.messages := by
  constructor
  · simp [runSync, List.foldl_append, applySyncEvent]
  · rfl

/-- C5: when media acquisition fails, the session carries the
human-readable failure status (mapping to the spec's Error state) and no
peerLink is created; when it succeeds, a peerLink is created in Initiator
role, the stream is stored, and the status becomes "Calling..." (the
spec's Calling state). -/
theorem initiate_media_outcomes (s : CallState) (ts : List Track) :
    (initializeCall .err s
        = { s with callStatus := "Failed to access camera/microphone" }
      ∧ (initializeCall .err s).peerRef = s.peerRef
      ∧ specStatus (initializeCall .err s).callStatus = .Error)
    ∧ ((initializeCall (.ok ts) s).peerRef
          = some { initiator := true, destroyed := false, received := [] }
      ∧ (initializeCall (.ok ts) s).localStream = some ts
      ∧ (initializeCall (.ok ts) s).callStatus = "Calling..."
      ∧ specStatus (initializeCall (.ok ts) s).callStatus = .Calling) := by
  constructor
  · refine ⟨rfl, rfl, ?_⟩
    show specStatus "Failed to access camera/microphone" = SpecCallState.Error
    decide
  · refine ⟨rfl, rfl, rfl, ?_⟩
    show specStatus "Calling..." = SpecCallState.Calling
    decide

/-- C6 counterexample: with a selected thread and non-empty content, but the
channel disconnected and the fallback REST write failing, no provisional
message is appended at all — contradicting the claim that either path
appends immediately without waiting for the round trip (the REST path
awaits the write and appends only on its success). -/
theorem send_offline_failure_no_append :
    (jsTrim sampleSendState.newMessage ≠ "" ∧ sampleSendState.userId = some "bob")
    ∧ (sendMessage "me" false false "100" "t0" sampleSendState).messages
        = sampleSendState.messages
    ∧ (sendMessage "me" false false "100" "t0" sampleSendState).messages = [] := by
  decide

/-- C6 amended: on the socket path the send event is emitted and the
provisional message (locally generated id, sender, recipient, content,
current timestamp) is appended immediately, regardless of any server
outcome; on the REST path the write is performed and awaited first, and
the same append happens only when the write succeeds — a failed REST
write appends nothing. -/
theorem send_paths_behavior (selfId nowId nowIso : String) (restOk : Bool)
    (s : MessagesState) (uid : String)
    (h1 : s.userId = some uid) (h2 : jsTrim s.newMessage ≠ "") :
    (sendMessage selfId true restOk nowId nowIso s
      = { s with
          emitted := s.emitted ++ [(uid, s.newMessage)]
          messages := s.messages ++
            [{ id := nowId, from_user_id := selfId, to_user_id := uid
               content := s.newMessage, created_at := nowIso }]
          newMessage := ""
          convReloads := s.convReloads + 1 })
    ∧ (sendMessage selfId false true nowId nowIso s
      = { s with
          restWrites := s.restWrites ++ [(uid, s.newMessage)]
          messages := s.messages ++
            [{ id := nowId, from_user_id := selfId, to_user_id := uid
               content := s.newMessage, created_at := nowIso }]
          newMessage := ""
          convReloads := s.convReloads + 1 })
    ∧ (sendMessage selfId false false nowId nowIso s).messages = s.messages := by
  refine ⟨?_, ?_, ?_⟩ <;> simp [sendMessage, h1, h2]

/-- Witness for the amended C6 on the concrete send state. -/
theorem send_paths_behavior_witness :
    (sampleSendState.userId = some "bob" ∧ jsTrim sampleSendState.newMessage ≠ "")
    ∧ ((sendMessage "me" true true "100" "t0" sampleSendState
      = { sampleSendState with
          emitted := sampleSendState.emitted ++ [("bob", sampleSendState.newMessage)]
          messages := sampleSendState.messages ++
            [{ id := "100", from_user_id := "me", to_user_id := "bob"
               content := sampleSendState.newMessage, created_at := "t0" }]
          newMessage := ""
          convReloads := sampleSendState.convReloads + 1 })
    ∧ (sendMessage "me" false true "100" "t0" sampleSendState
      = { sampleSendState with
          restWrites := sampleSendState.restWrites ++ [("bob", sampleSendState.newMessage)]
          messages := sampleSendState.messages ++
            [{ id := "100", from_user_id := "me", to_user_id := "bob"
               content := sampleSendState.newMessage, created_at := "t0" }]
          newMessage := ""
          convReloads := sampleSendState.convReloads + 1 })
    ∧ (sendMessage "me" false false "100" "t0" sampleSendState).messages
        = sampleSendState.messages) :=
  ⟨⟨by decide, by decide⟩,
    send_paths_behavior "me" "100" "t0" true sampleSendState "bob" (by decide) (by decide)⟩

/-- C7: an incoming_call whose sender differs from the session's counterpart
is ignored: the state is completely unchanged, no signal reaches the
peerLink, and nothing fatal happens (the handler is total). -/
theorem foreign_incoming_call_ignored (s : CallState) (from_user_id : String)
    (sig : Signal) (h : from_user_id ≠ s.recipientId) :
    handleIncomingCall from_user_id sig s = s := by
  simp [handleIncomingCall, h]

/-- Witness for C7: a signal from "mallory" on a call addressed to "alice". -/
theorem foreign_incoming_call_ignored_witness :
    "mallory" ≠ sampleLiveCall.recipientId
    ∧ handleIncomingCall "mallory" "stray-sdp" sampleLiveCall = sampleLiveCall :=
  ⟨by decide, foreign_incoming_call_ignored sampleLiveCall "mallory" "stray-sdp" (by decide)⟩

/-- C8: with an acquired local stream, toggling mute twice is the identity
on the whole component state; a single toggle flips the muted flag and
flips exactly the audio tracks' enabled flags, emitting nothing on the
socket and leaving the status and peerLink untouched.  Since a fresh
session starts with isMuted = false, a double toggle returns muted to
false. -/
theorem toggle_mute_involutive (s : CallState) (ts : List Track)
    (h : s.localStream = some ts) :
    toggleMute (toggleMute s) = s
    ∧ (toggleMute s).isMuted = !s.isMuted
    ∧ (toggleMute s).localStream = some (ts.map flipAudio)
    ∧ (toggleMute s).callStatus = s.callStatus
    ∧ (toggleMute s).emitted = s.emitted
    ∧ (toggleMute s).peerRef = s.peerRef
    ∧ (s.isMuted = false → (toggleMute (toggleMute s)).isMuted = false) := by
  cases s with
  | mk rid sock ls rs m v pr st ca em =>
      simp only [CallState.mk.injEq] at h
      subst h
      refine ⟨?_, ?_, ?_, ?_, ?_, ?_, ?_⟩ <;>
        simp [toggleMute, List.map_map, Function.comp_def, flipAudio_flipAudio,
          Bool.not_not]

/-- Witness for C8 on a connected call with one audio and one video track. -/
theorem toggle_mute_involutive_witness :
    sampleLiveCall.localStream = some
      [{ isAudio := true, enabled := true, ended := false, releaseCount := 0 },
       { isAudio := false, enabled := true, ended := false, releaseCount := 0 }]
    ∧ (toggleMute (toggleMute sampleLiveCall) = sampleLiveCall
      ∧ (toggleMute sampleLiveCall).isMuted = !sampleLiveCall.isMuted
      ∧ (toggleMute sampleLiveCall).localStream = some
          (List.map flipAudio
            [{ isAudio := true, enabled := true, ended := false, releaseCount := 0 },
             { isAudio := false, enabled := true, ended := false, releaseCount := 0 }])
      ∧ (toggleMute sampleLiveCall).callStatus = sampleLiveCall.callStatus
      ∧ (toggleMute sampleLiveCall).emitted = sampleLiveCall.emitted
      ∧ (toggleMute sampleLiveCall).peerRef = sampleLiveCall.peerRef
      ∧ (sampleLiveCall.isMuted = false →
          (toggleMute (toggleMute sampleLiveCall)).isMuted = false)) :=
  ⟨by decide,
    toggle_mute_involutive sampleLiveCall
      [{ isAudio := true, enabled := true, ended := false, releaseCount := 0 },
       { isAudio := false, enabled := true, ended := false, releaseCount := 0 }]
      (by decide)⟩

/-- C9: sendMessage is atomic on failure — when the channel is disconnected
and the awaited REST write throws, the state is exactly as before except
for the recorded write attempt and the error toast: no message is
appended, the input is unchanged, and the conversation list is not
reloaded.  On the socket path the append always happens, whatever the
server outcome. -/
theorem send_failure_atomic (selfId nowId nowIso : String) (restOk : Bool)
    (s : MessagesState) (uid : String)
    (h1 : s.userId = some uid) (h2 : jsTrim s.newMessage ≠ "") :
    sendMessage selfId false false nowId nowIso s
      = { s with
          restWrites := s.restWrites ++ [(uid, s.newMessage)]
          toasts := s.toasts ++ ["Failed to send message"] }
    ∧ (sendMessage selfId true restOk nowId nowIso s).messages
      = s.messages ++
          [{ id := nowId, from_user_id := selfId, to_user_id := uid
             content := s.newMessage, created_at := nowIso }] := by
  constructor <;> simp [sendMessage, h1, h2]

/-- Witness for C9 on the concrete send state. -/
theorem send_failure_atomic_witness :
    (sampleSendState.userId = some "bob" ∧ jsTrim sampleSendState.newMessage ≠ "")
    ∧ (sendMessage "you" false false "101" "t1" sampleSendState
      = { sampleSendState with
          restWrites := sampleSendState.restWrites ++ [("bob", sampleSendState.newMessage)]
          toasts := sampleSendState.toasts ++ ["Failed to send message"] }
    ∧ (sendMessage "you" true false "101" "t1" sampleSendState).messages
      = sampleSendState.messages ++
          [{ id := "101", from_user_id := "you", to_user_id := "bob"
             content := sampleSendState.newMessage, created_at := "t1" }]) :=
  ⟨⟨by decide, by decide⟩,
    send_failure_atomic "you" "101" "t1" false sampleSendState "bob" (by decide) (by decide)⟩

/-- C10: a call_accepted signal is fed into the peerLink unconditionally
whenever one exists — the handler destructures only the signal field, so
no sender or addressing check restricts which payloads reach the current
negotiation (contrast handleIncomingCall, which guards on the sender). -/
theorem call_accepted_unconditional (s : CallState) (sig : Signal) (p : Peer)
    (h : s.peerRef = some p) :
    handleCallAccepted sig s = { s with peerRef := some (p.signal sig) } := by
  simp [handleCallAccepted, h]

/-- Witness for C10: an arbitrary accepted-call payload on a live call. -/
theorem call_accepted_unconditional_witness :
    sampleLiveCall.peerRef = some { initiator := true, destroyed := false, received := [] }
    ∧ handleCallAccepted "any-sdp" sampleLiveCall
      = { sampleLiveCall with
          peerRef := some (Peer.signal { initiator := true, destroyed := false, received := [] } "any-sdp") } :=
  ⟨by decide,
    call_accepted_unconditional sampleLiveCall "any-sdp"
      { initiator := true, destroyed := false, received := [] } (by decide)⟩

end Zoq
